import Mathlib

/-!
Shallow embedding of the RBAC core of this repository: the role and dot
permission model (server/lib/rbac/types.ts), the pure permission evaluator
(server/lib/rbac/permissions.ts), the Hono guard middleware
(server/lib/rbac/middleware.ts), the membership endpoint
(server/modules/me/index.ts) and the client-side decision mirror
(lib/rbac-client.ts).

Roles and permissions are string enums in the source; role values are
modelled as `String` so that unrecognized role values (possible at runtime,
and guarded against with `?.` / `??` in the source) are representable.
Permissions are modelled as a closed inductive type, with
`permissionToString` giving the wire value of each enum member and
`allPermissions` modelling `Object.values(Permission)`.
-/

namespace RBAC

/-- The `Permission` enum of server/lib/rbac/types.ts, in declaration order. -/
inductive Permission where
  | MANAGE_ORGANIZATION
  | VIEW_ORGANIZATION
  | DELETE_ORGANIZATION
  | MANAGE_MEMBERS
  | INVITE_MEMBERS
  | REMOVE_MEMBERS
  | VIEW_MEMBERS
  | MANAGE_TRAINERS
  | ASSIGN_TRAINERS
  | MANAGE_USERS
  | VIEW_USERS
  | CREATE_WORKOUTS
  | EDIT_WORKOUTS
  | DELETE_WORKOUTS
  | VIEW_WORKOUTS
  | ASSIGN_WORKOUTS
  | MANAGE_SCHEDULE
  | VIEW_SCHEDULE
  | VIEW_ANALYTICS
  | VIEW_REPORTS
  | MANAGE_BILLING
  | VIEW_BILLING
  | MANAGE_SETTINGS
  | VIEW_SETTINGS
  deriving DecidableEq, Fintype

/-- `Object.values(Permission)`: the full permission enumeration, in order. -/
def allPermissions : List Permission :=
  [ .MANAGE_ORGANIZATION, .VIEW_ORGANIZATION, .DELETE_ORGANIZATION,
    .MANAGE_MEMBERS, .INVITE_MEMBERS, .REMOVE_MEMBERS, .VIEW_MEMBERS,
    .MANAGE_TRAINERS, .ASSIGN_TRAINERS,
    .MANAGE_USERS, .VIEW_USERS,
    .CREATE_WORKOUTS, .EDIT_WORKOUTS, .DELETE_WORKOUTS, .VIEW_WORKOUTS,
    .ASSIGN_WORKOUTS,
    .MANAGE_SCHEDULE, .VIEW_SCHEDULE,
    .VIEW_ANALYTICS, .VIEW_REPORTS,
    .MANAGE_BILLING, .VIEW_BILLING,
    .MANAGE_SETTINGS, .VIEW_SETTINGS ]

/-- The string value each `Permission` enum member carries in the source. -/
def permissionToString : Permission → String
  | .MANAGE_ORGANIZATION => "MANAGE_ORGANIZATION"
  | .VIEW_ORGANIZATION => "VIEW_ORGANIZATION"
  | .DELETE_ORGANIZATION => "DELETE_ORGANIZATION"
  | .MANAGE_MEMBERS => "MANAGE_MEMBERS"
  | .INVITE_MEMBERS => "INVITE_MEMBERS"
  | .REMOVE_MEMBERS => "REMOVE_MEMBERS"
  | .VIEW_MEMBERS => "VIEW_MEMBERS"
  | .MANAGE_TRAINERS => "MANAGE_TRAINERS"
  | .ASSIGN_TRAINERS => "ASSIGN_TRAINERS"
  | .MANAGE_USERS => "MANAGE_USERS"
  | .VIEW_USERS => "VIEW_USERS"
  | .CREATE_WORKOUTS => "CREATE_WORKOUTS"
  | .EDIT_WORKOUTS => "EDIT_WORKOUTS"
  | .DELETE_WORKOUTS => "DELETE_WORKOUTS"
  | .VIEW_WORKOUTS => "VIEW_WORKOUTS"
  | .ASSIGN_WORKOUTS => "ASSIGN_WORKOUTS"
  | .MANAGE_SCHEDULE => "MANAGE_SCHEDULE"
  | .VIEW_SCHEDULE => "VIEW_SCHEDULE"
  | .VIEW_ANALYTICS => "VIEW_ANALYTICS"
  | .VIEW_REPORTS => "VIEW_REPORTS"
  | .MANAGE_BILLING => "MANAGE_BILLING"
  | .VIEW_BILLING => "VIEW_BILLING"
  | .MANAGE_SETTINGS => "MANAGE_SETTINGS"
  | .VIEW_SETTINGS => "VIEW_SETTINGS"

/-- `ROLE_PERMISSIONS[Role.OWNER]` of server/lib/rbac/types.ts. -/
def ownerPermissions : List Permission :=
  [ .MANAGE_ORGANIZATION, .VIEW_ORGANIZATION, .DELETE_ORGANIZATION,
    .MANAGE_MEMBERS, .INVITE_MEMBERS, .REMOVE_MEMBERS, .VIEW_MEMBERS,
    .MANAGE_TRAINERS, .ASSIGN_TRAINERS,
    .MANAGE_USERS, .VIEW_USERS,
    .CREATE_WORKOUTS, .EDIT_WORKOUTS, .DELETE_WORKOUTS, .VIEW_WORKOUTS,
    .ASSIGN_WORKOUTS,
    .MANAGE_SCHEDULE, .VIEW_SCHEDULE,
    .VIEW_ANALYTICS, .VIEW_REPORTS,
    .MANAGE_BILLING, .VIEW_BILLING,
    .MANAGE_SETTINGS, .VIEW_SETTINGS ]

/-- `ROLE_PERMISSIONS[Role.TRAINER]` of server/lib/rbac/types.ts. -/
def trainerPermissions : List Permission :=
  [ .VIEW_ORGANIZATION, .VIEW_MEMBERS, .VIEW_USERS,
    .CREATE_WORKOUTS, .EDIT_WORKOUTS, .DELETE_WORKOUTS, .VIEW_WORKOUTS,
    .ASSIGN_WORKOUTS,
    .MANAGE_SCHEDULE, .VIEW_SCHEDULE,
    .VIEW_ANALYTICS, .VIEW_SETTINGS ]

/-- `ROLE_PERMISSIONS[Role.USER]` of server/lib/rbac/types.ts. -/
def userPermissions : List Permission :=
  [ .VIEW_ORGANIZATION, .VIEW_WORKOUTS, .VIEW_SCHEDULE, .VIEW_SETTINGS ]

/-- The `ROLE_PERMISSIONS` record, read at an arbitrary string key: the
entry for one of the three declared roles, `none` (JS `undefined`) for
any other key. -/
def ROLE_PERMISSIONS (role : String) : Option (List Permission) :=
  if role == "OWNER" then some ownerPermissions
  else if role == "TRAINER" then some trainerPermissions
  else if role == "USER" then some userPermissions
  else none

/-- `Object.values(Role)`: the declared role values. -/
def Roles : List String := ["OWNER", "TRAINER", "USER"]

/-- `isRole` of server/lib/rbac/types.ts. -/
def isRole (value : String) : Bool := Roles.contains value

/-- `hasPermission` of server/lib/rbac/permissions.ts:
`ROLE_PERMISSIONS[role]?.includes(permission) ?? false`. -/
def hasPermission (role : String) (permission : Permission) : Bool :=
  ((ROLE_PERMISSIONS role).map (fun ps => ps.contains permission)).getD false

/-- `hasAnyPermission` of server/lib/rbac/permissions.ts. -/
def hasAnyPermission (role : String) (permissions : List Permission) : Bool :=
  permissions.any (fun permission => hasPermission role permission)

/-- `hasAllPermissions` of server/lib/rbac/permissions.ts. -/
def hasAllPermissions (role : String) (permissions : List Permission) : Bool :=
  permissions.all (fun permission => hasPermission role permission)

/-- `getRolePermissions` of server/lib/rbac/permissions.ts:
`ROLE_PERMISSIONS[role] ?? []`. -/
def getRolePermissions (role : String) : List Permission :=
  (ROLE_PERMISSIONS role).getD []

/-- `canManageRole` of server/lib/rbac/permissions.ts. -/
def canManageRole (managerRole targetRole : String) : Bool :=
  if managerRole == "OWNER" then true
  else if managerRole == "TRAINER" && targetRole == "USER" then true
  else false

/-- The string-literal action union of `canPerformAction`. -/
inductive Action where
  | view
  | edit
  | delete
  | manage
  deriving DecidableEq, Fintype

/-- The `hierarchy` record inside `hasRoleHierarchy`, read at an arbitrary
string key (`undefined` for an unrecognized role). -/
def hierarchyRank (role : String) : Option Nat :=
  if role == "OWNER" then some 3
  else if role == "TRAINER" then some 2
  else if role == "USER" then some 1
  else none

/-- `hasRoleHierarchy` of server/lib/rbac/types.ts:
`hierarchy[role1] >= hierarchy[role2]`, where a comparison against the JS
`undefined` (NaN after coercion) is false. -/
def hasRoleHierarchy (role1 role2 : String) : Bool :=
  match hierarchyRank role1, hierarchyRank role2 with
  | some r1, some r2 => r2 ≤ r1
  | _, _ => false

/-- `canPerformAction` of server/lib/rbac/permissions.ts. -/
def canPerformAction (actorRole targetRole : String) (action : Action) : Bool :=
  if !hasRoleHierarchy actorRole targetRole then false
  else if actorRole == "OWNER" then true
  else if actorRole == "TRAINER" && targetRole == "USER" then
    action == Action.view || action == Action.edit
  else false

/-- Outcome of one middleware step: a structured denial (status plus JSON
message) returned without calling `next`, or proceeding with a context. -/
inductive GuardResult (α : Type) where
  | denied (status : Nat) (message : String)
  | proceed (ctx : α)
  deriving DecidableEq

/-- The part of the better-auth session the guard reads: the subject id and
`session.activeOrganizationId` (absent or possibly the empty string). -/
structure Session where
  userId : String
  activeOrganizationId : Option String
  deriving DecidableEq

/-- A raw row of the `member` collection: the role field is an arbitrary
string until validated by `isRole`. -/
structure MemberRecord where
  userId : String
  organizationId : String
  role : String
  deriving DecidableEq

/-- `OrganizationMember` of server/lib/rbac/context.ts. -/
structure OrganizationMember where
  userId : String
  organizationId : String
  role : String
  deriving DecidableEq

/-- `getOrganizationMember` of server/lib/rbac/context.ts:
`prisma.member.findFirst` over the member rows, then the `isRole` type
guard; an invalid stored role yields `null`. -/
def getOrganizationMember (db : List MemberRecord) (userId organizationId : String) :
    Option OrganizationMember :=
  match db.find? (fun m => m.userId == userId && m.organizationId == organizationId) with
  | none => none
  | some m =>
    if isRole m.role then some { userId := m.userId, organizationId := m.organizationId, role := m.role }
    else none

/-- JS truthiness of a possibly-absent string: `undefined`, `null` and the
empty string are falsy. -/
def isTruthy : Option String → Bool
  | none => false
  | some s => !(s == "")

/-- The JS `||` operator on possibly-absent strings: the left operand if
truthy, otherwise the right operand. -/
def jsOrStr (a b : Option String) : Option String :=
  if isTruthy a then a else b

/-- The organization-id expression of `requireOrganizationContext`:
`session.session.activeOrganizationId || query organizationId || path
organizationId`. -/
def resolveOrganizationId (active queryHint paramHint : Option String) : Option String :=
  jsOrStr (jsOrStr active queryHint) paramHint

/-- The context variables `requireOrganizationContext` attaches on success. -/
structure RBACContext where
  userId : String
  organizationId : String
  role : String
  deriving DecidableEq

/-- `requireOrganizationContext` of server/lib/rbac/middleware.ts, as a
function of the session-collaborator result, the two request hints and the
member store. -/
def requireOrganizationContext (db : List MemberRecord) (session : Option Session)
    (queryHint paramHint : Option String) : GuardResult RBACContext :=
  match session with
  | none => .denied 401 "Unauthorized"
  | some s =>
    match resolveOrganizationId s.activeOrganizationId queryHint paramHint with
    | none => .denied 400 "Organization ID is required"
    | some oid =>
      if oid == "" then .denied 400 "Organization ID is required"
      else
        match getOrganizationMember db s.userId oid with
        | none => .denied 403 "User is not a member of this organization"
        | some m => .proceed { userId := s.userId, organizationId := oid, role := m.role }

/-- `requireRole` of server/lib/rbac/middleware.ts: the middleware body as
a function of the `role` context variable (the empty string standing for a
missing, falsy variable). -/
def requireRole (allowedRoles : List String) (role : String) : GuardResult Unit :=
  if role == "" || !(allowedRoles.contains role) then
    .denied 403 ("Access denied. Required role: " ++ String.intercalate " or " allowedRoles)
  else .proceed ()

/-- `requirePermission` of server/lib/rbac/middleware.ts (any-of form). -/
def requirePermission (requiredPermissions : List Permission) (role : String) :
    GuardResult Unit :=
  if role == "" then .denied 403 "Role not found in context"
  else if !(hasAnyPermission role requiredPermissions) then
    .denied 403 ("Access denied. Required permission: " ++
      String.intercalate " or " (requiredPermissions.map permissionToString))
  else .proceed ()

/-- `requireAllPermissions` of server/lib/rbac/middleware.ts (all-of form). -/
def requireAllPermissions (requiredPermissions : List Permission) (role : String) :
    GuardResult Unit :=
  if role == "" then .denied 403 "Role not found in context"
  else if !(hasAllPermissions role requiredPermissions) then
    .denied 403 ("Access denied. Required all permissions: " ++
      String.intercalate " and " (requiredPermissions.map permissionToString))
  else .proceed ()

/-- A JSON response as far as the claims observe it: status and message. -/
structure Response where
  status : Nat
  message : String
  deriving DecidableEq

/-- A route protected by `requireOrganizationContext` then
`requirePermission`, then a downstream handler: each middleware either
returns its denial response or calls `next`. -/
def protectedRoute (db : List MemberRecord) (session : Option Session)
    (queryHint paramHint : Option String) (requiredPermissions : List Permission)
    (handler : RBACContext → Response) : Response :=
  match requireOrganizationContext db session queryHint paramHint with
  | .denied s m => { status := s, message := m }
  | .proceed ctx =>
    match requirePermission requiredPermissions ctx.role with
    | .denied s m => { status := s, message := m }
    | .proceed _ => handler ctx

/-- The role, permission-list and `can`-map part of the `MembershipSummary`
payload of lib/rbac-client.ts. The `can` field is the entry list built by
`Object.fromEntries` in server/modules/me/index.ts. -/
structure MembershipSummary where
  role : String
  permissions : List Permission
  can : List (Permission × Bool)
  deriving DecidableEq

/-- The `can` object of the membership endpoint:
`Object.values(Permission).map(p => [p, permissions.includes(p)])`. -/
def buildCan (permissions : List Permission) : List (Permission × Bool) :=
  allPermissions.map (fun permission => (permission, permissions.contains permission))

/-- The membership endpoint of server/modules/me/index.ts, restricted to the
fields the claims observe: `permissions = ROLE_PERMISSIONS[role]` (the
endpoint runs only after the guard validated the role, hence the `Option`),
`can` as built by `Object.fromEntries`. -/
def membershipForRole (role : String) : Option MembershipSummary :=
  (ROLE_PERMISSIONS role).map (fun permissions =>
    { role := role, permissions := permissions, can := buildCan permissions })

namespace RbacClient

/-- The read `membership.can[permission]` of lib/rbac-client.ts: a missing
entry is `undefined`, which is falsy. -/
def canGet (m : MembershipSummary) (permission : Permission) : Bool :=
  (m.can.lookup permission).getD false

/-- `hasPermission` of lib/rbac-client.ts, with the `Permission | Permission[]`
argument already normalized to a list and the `requireAll` option explicit
(its source default is `false`). -/
def hasPermission (targetPermissions : List Permission)
    (membership : Option MembershipSummary) (requireAll : Bool) : Bool :=
  match membership with
  | none => false
  | some m =>
    if requireAll then targetPermissions.all (fun permission => canGet m permission)
    else targetPermissions.any (fun permission => canGet m permission)

/-- `hasRole` of lib/rbac-client.ts, with the role argument normalized to a
list. -/
def hasRole (targetRoles : List String) (membership : Option MembershipSummary) : Bool :=
  match membership with
  | none => false
  | some m => targetRoles.contains m.role

/-- `listPermissions` of lib/rbac-client.ts. -/
def listPermissions (membership : Option MembershipSummary) : List Permission :=
  (membership.map (fun m => m.permissions)).getD []

end RbacClient

/-! Helper lemmas shared by the claim theorems. -/

/-- A string accepted by the `isRole` type guard is one of the three
declared role values. -/
theorem isRole_eq_cases (role : String) (h : isRole role = true) :
    role = "OWNER" ∨ role = "TRAINER" ∨ role = "USER" := by
  simp [isRole, Roles, List.contains] at h
  exact h

/-- A string rejected by the `isRole` type guard differs from each declared
role value. -/
theorem isRole_ne_cases (role : String) (h : isRole role = false) :
    role ≠ "OWNER" ∧ role ≠ "TRAINER" ∧ role ≠ "USER" := by
  simp [isRole, Roles, List.contains] at h
  exact h

/-- Pointwise-equal predicates give equal `List.all` results. -/
theorem list_all_ext {α : Type} (l : List α) (f g : α → Bool)
    (h : ∀ a, f a = g a) : l.all f = l.all g := by
  induction l with
  | nil => rfl
  | cons a tl ih => simp [List.all_cons, h a, ih]

/-- Pointwise-equal predicates give equal `List.any` results. -/
theorem list_any_ext {α : Type} (l : List α) (f g : α → Bool)
    (h : ∀ a, f a = g a) : l.any f = l.any g := by
  induction l with
  | nil => rfl
  | cons a tl ih => simp [List.any_cons, h a, ih]

/-- An unrecognized role has no entry in the `ROLE_PERMISSIONS` record. -/
theorem ROLE_PERMISSIONS_eq_none (role : String) (h : isRole role = false) :
    ROLE_PERMISSIONS role = none := by
  obtain ⟨h1, h2, h3⟩ := isRole_ne_cases role h
  simp [ROLE_PERMISSIONS, h1, h2, h3]

/-- An unrecognized role has no entry in the `hierarchy` record. -/
theorem hierarchyRank_eq_none (role : String) (h : isRole role = false) :
    hierarchyRank role = none := by
  obtain ⟨h1, h2, h3⟩ := isRole_ne_cases role h
  simp [hierarchyRank, h1, h2, h3]

/-- For each declared role the `can` entry list of the membership payload
agrees pointwise with the server evaluator. -/
theorem canGet_eq_hasPermission (role : String) (h : isRole role = true)
    (ms : MembershipSummary) (hms : membershipForRole role = some ms) :
    ∀ p : Permission, RbacClient.canGet ms p = hasPermission role p := by
  rcases isRole_eq_cases role h with a | a | a <;> subst a <;>
    (injection hms with h2; subst h2; decide)

/-- For a non-empty `role` context variable, the any-of permission
middleware proceeds exactly when `hasAnyPermission` holds. -/
theorem requirePermission_proceed_iff (perms : List Permission) (role : String)
    (hne : role ≠ "") :
    (requirePermission perms role = .proceed ()) ↔ hasAnyPermission role perms = true := by
  have hb : (role == "") = false := by simp [hne]
  cases hv : hasAnyPermission role perms <;> simp [requirePermission, hb, hv]

/-- For a non-empty `role` context variable, the all-of permission
middleware proceeds exactly when `hasAllPermissions` holds. -/
theorem requireAllPermissions_proceed_iff (perms : List Permission) (role : String)
    (hne : role ≠ "") :
    (requireAllPermissions perms role = .proceed ()) ↔ hasAllPermissions role perms = true := by
  have hb : (role == "") = false := by simp [hne]
  cases hv : hasAllPermissions role perms <;> simp [requireAllPermissions, hb, hv]

/-- A declared role value is not the empty string. -/
theorem isRole_ne_empty (role : String) (h : isRole role = true) : role ≠ "" := by
  rcases isRole_eq_cases role h with a | a | a <;> subst a <;> decide

/-- When every hint is falsy, the context middleware denies with the
missing-organization response. -/
theorem requireOrganizationContext_no_hint (db : List MemberRecord) (uid : String)
    (active qh ph : Option String) (ha : isTruthy active = false)
    (hq : isTruthy qh = false) (hp : isTruthy ph = false) :
    requireOrganizationContext db (some ⟨uid, active⟩) qh ph =
      .denied 400 "Organization ID is required" := by
  have hr : resolveOrganizationId active qh ph = ph := by
    simp [resolveOrganizationId, jsOrStr, ha, hq]
  cases ph with
  | none => simp [requireOrganizationContext, hr]
  | some s =>
    have hs : s = "" := by simp [isTruthy] at hp; exact hp
    subst hs
    simp [requireOrganizationContext, hr]

/-! Claim theorems. -/

/-- C5: for declared actor and target roles and every action,
`canPerformAction` is false whenever `hasRoleHierarchy` fails, and when it
holds, OWNER may perform every action on any target, TRAINER may perform
exactly `view` and `edit` and only on target USER, and every other
combination is false. -/
theorem canPerformAction_characterization (actorRole targetRole : String)
    (ha : isRole actorRole = true) (ht : isRole targetRole = true) (action : Action) :
    canPerformAction actorRole targetRole action =
      (hasRoleHierarchy actorRole targetRole &&
        (actorRole == "OWNER" ||
          (actorRole == "TRAINER" && targetRole == "USER" &&
            (action == Action.view || action == Action.edit)))) := by
  rcases isRole_eq_cases actorRole ha with h | h | h <;>
    rcases isRole_eq_cases targetRole ht with g | g | g <;>
      subst h <;> subst g <;> revert action <;> decide

/-- C5 witness: TRAINER may edit a USER but not delete one, and USER may
not view a TRAINER. -/
theorem canPerformAction_characterization_witness :
    canPerformAction "TRAINER" "USER" Action.edit =
      (hasRoleHierarchy "TRAINER" "USER" &&
        ("TRAINER" == "OWNER" ||
          ("TRAINER" == "TRAINER" && "USER" == "USER" &&
            (Action.edit == Action.view || Action.edit == Action.edit)))) :=
  canPerformAction_characterization "TRAINER" "USER" (by decide) (by decide) Action.edit

/-- C6: OWNER manages every declared role (including OWNER), TRAINER
manages exactly USER, and USER manages no role. -/
theorem canManageRole_characterization (targetRole : String)
    (ht : isRole targetRole = true) :
    canManageRole "OWNER" targetRole = true ∧
    canManageRole "TRAINER" targetRole = (targetRole == "USER") ∧
    canManageRole "USER" targetRole = false := by
  rcases isRole_eq_cases targetRole ht with g | g | g <;> subst g <;> decide

/-- C6 witness: evaluated at target role TRAINER. -/
theorem canManageRole_characterization_witness :
    canManageRole "OWNER" "TRAINER" = true ∧
    canManageRole "TRAINER" "TRAINER" = ("TRAINER" == "USER") ∧
    canManageRole "USER" "TRAINER" = false :=
  canManageRole_characterization "TRAINER" (by decide)

/-- C8: for every role string, `hasAnyPermission` on the empty permission
list is false and `hasAllPermissions` on the empty permission list is true. -/
theorem empty_permission_list_semantics (role : String) :
    hasAnyPermission role [] = false ∧ hasAllPermissions role [] = true :=
  ⟨rfl, rfl⟩

/-- C10: the concrete permission table is monotone in hierarchy rank: for
declared roles, whenever `hasRoleHierarchy r1 r2` holds, every permission of
`r2` is also a permission of `r1`. -/
theorem rolePermissions_monotone (r1 r2 : String) (h1 : isRole r1 = true)
    (h2 : isRole r2 = true) (hh : hasRoleHierarchy r1 r2 = true) :
    ∀ p : Permission, hasPermission r2 p = true → hasPermission r1 p = true := by
  rcases isRole_eq_cases r1 h1 with a | a | a <;> rcases isRole_eq_cases r2 h2 with b | b | b <;>
    subst a <;> subst b <;> revert hh <;> decide

/-- C10 witness: TRAINER is above USER, and the USER permission
VIEW_WORKOUTS is indeed granted to TRAINER. -/
theorem rolePermissions_monotone_witness :
    hasPermission "TRAINER" Permission.VIEW_WORKOUTS = true :=
  rolePermissions_monotone "TRAINER" "USER" (by decide) (by decide) (by decide)
    Permission.VIEW_WORKOUTS (by decide)

/-- C7 counterexample: for the unrecognized role value SUPERADMIN,
`hasAllPermissions` on the empty permission list returns true, so not every
predicate returns false for every permission-list argument. -/
theorem unrecognized_role_claim_counterexample :
    isRole "SUPERADMIN" = false ∧ hasAllPermissions "SUPERADMIN" [] = true := by
  exact ⟨by decide, rfl⟩

/-- C7 (amended): an unrecognized role yields the empty permission set from
`getRolePermissions` and false from every evaluator predicate, except that
`hasAllPermissions` on the empty list is vacuously true. -/
theorem unrecognized_role_fail_closed (role : String) (h : isRole role = false) :
    getRolePermissions role = [] ∧
    (∀ p : Permission, hasPermission role p = false) ∧
    (∀ L : List Permission, hasAnyPermission role L = false) ∧
    (∀ L : List Permission, L ≠ [] → hasAllPermissions role L = false) ∧
    hasAllPermissions role [] = true ∧
    (∀ other : String, hasRoleHierarchy role other = false) ∧
    (∀ other : String, hasRoleHierarchy other role = false) ∧
    (∀ t : String, canManageRole role t = false) ∧
    (∀ t : String, ∀ a : Action, canPerformAction role t a = false) ∧
    (∀ s : String, ∀ a : Action, canPerformAction s role a = false) := by
  obtain ⟨h1, h2, h3⟩ := isRole_ne_cases role h
  have hrp : ROLE_PERMISSIONS role = none := ROLE_PERMISSIONS_eq_none role h
  have hrank : hierarchyRank role = none := hierarchyRank_eq_none role h
  have hperm : ∀ p : Permission, hasPermission role p = false := by
    intro p; simp [hasPermission, hrp]
  have hh1 : ∀ other : String, hasRoleHierarchy role other = false := by
    intro other; simp [hasRoleHierarchy, hrank]
  have hh2 : ∀ other : String, hasRoleHierarchy other role = false := by
    intro other; cases hx : hierarchyRank other <;> simp [hasRoleHierarchy, hrank, hx]
  refine ⟨?_, hperm, ?_, ?_, rfl, hh1, hh2, ?_, ?_, ?_⟩
  · simp [getRolePermissions, hrp]
  · intro L; simp [hasAnyPermission, hperm]
  · intro L hL
    cases L with
    | nil => exact absurd rfl hL
    | cons p tl => simp [hasAllPermissions, hperm p]
  · intro t; simp [canManageRole, h1, h2]
  · intro t a; simp [canPerformAction, hh1 t]
  · intro s a; simp [canPerformAction, hh2 s]

/-- C7 witness: evaluated at the unrecognized role value SUPERADMIN. -/
theorem unrecognized_role_fail_closed_witness :
    getRolePermissions "SUPERADMIN" = [] ∧
    hasAllPermissions "SUPERADMIN" [Permission.VIEW_SETTINGS] = false :=
  ⟨(unrecognized_role_fail_closed "SUPERADMIN" (by decide)).1,
    (unrecognized_role_fail_closed "SUPERADMIN" (by decide)).2.2.2.1
      [Permission.VIEW_SETTINGS] (by decide)⟩

/-- C2: for every declared role, the membership payload has
`permissions = ROLE_PERMISSIONS[role]` and its `can` entry list is total
over the permission enumeration with `can[p] = permissions.includes(p)`. -/
theorem membershipSummary_invariant (role : String) (h : isRole role = true)
    (ms : MembershipSummary) (hms : membershipForRole role = some ms) :
    ROLE_PERMISSIONS role = some ms.permissions ∧
    (∀ p : Permission, ms.can.lookup p = some (ms.permissions.contains p)) := by
  rcases isRole_eq_cases role h with a | a | a <;> subst a <;>
    (injection hms with h2; subst h2; exact ⟨rfl, by decide⟩)

/-- C2 witness: evaluated at role USER, with the summary the endpoint
builds for it. -/
theorem membershipSummary_invariant_witness :
    ROLE_PERMISSIONS "USER" =
      some (MembershipSummary.permissions
        { role := "USER", permissions := userPermissions, can := buildCan userPermissions }) ∧
    (MembershipSummary.can
        { role := "USER", permissions := userPermissions, can := buildCan userPermissions }).lookup
      Permission.VIEW_WORKOUTS = some (userPermissions.contains Permission.VIEW_WORKOUTS) :=
  ⟨(membershipSummary_invariant "USER" (by decide)
      { role := "USER", permissions := userPermissions, can := buildCan userPermissions }
      (by decide)).1,
    (membershipSummary_invariant "USER" (by decide)
      { role := "USER", permissions := userPermissions, can := buildCan userPermissions }
      (by decide)).2 Permission.VIEW_WORKOUTS⟩

/-- C1: for every declared role and non-empty permission list, the client
mirror evaluated against the membership summary for that role equals the
server evaluator (`hasAllPermissions` when requireAll, `hasAnyPermission`
otherwise), and the permission middleware proceeds exactly when the mirror
answers true. -/
theorem cross_boundary_consistency (role : String) (h : isRole role = true)
    (ms : MembershipSummary) (hms : membershipForRole role = some ms)
    (perms : List Permission) (_hne : perms ≠ []) (requireAll : Bool) :
    RbacClient.hasPermission perms (some ms) requireAll =
      (if requireAll then hasAllPermissions role perms else hasAnyPermission role perms) ∧
    ((requirePermission perms role = .proceed ()) ↔
      RbacClient.hasPermission perms (some ms) false = true) ∧
    ((requireAllPermissions perms role = .proceed ()) ↔
      RbacClient.hasPermission perms (some ms) true = true) := by
  have hcan := canGet_eq_hasPermission role h ms hms
  have hrole : role ≠ "" := isRole_ne_empty role h
  have hany : RbacClient.hasPermission perms (some ms) false = hasAnyPermission role perms := by
    simpa [RbacClient.hasPermission, hasAnyPermission] using list_any_ext perms _ _ hcan
  have hall : RbacClient.hasPermission perms (some ms) true = hasAllPermissions role perms := by
    simpa [RbacClient.hasPermission, hasAllPermissions] using list_all_ext perms _ _ hcan
  refine ⟨?_, ?_, ?_⟩
  · cases requireAll
    · simpa using hany
    · simpa using hall
  · rw [hany]; exact requirePermission_proceed_iff perms role hrole
  · rw [hall]; exact requireAllPermissions_proceed_iff perms role hrole

/-- C3 counterexample: for an unmet all-of permission requirement the guard
message is "Access denied. Required all permissions: ...", not the claimed
"Access denied. Required permission: ...". -/
theorem denial_message_counterexample :
    requireAllPermissions [Permission.MANAGE_ORGANIZATION] "USER" =
      .denied 403 "Access denied. Required all permissions: MANAGE_ORGANIZATION" ∧
    requireAllPermissions [Permission.MANAGE_ORGANIZATION] "USER" ≠
      .denied 403 "Access denied. Required permission: MANAGE_ORGANIZATION" :=
  ⟨by decide, by decide⟩

/-- C3 (amended): every guard denial carries the status and message of the
table, with the all-of permission form carrying
"Access denied. Required all permissions: <perms joined by and>" rather
than the any-of wording: 401 Unauthorized without a session, 400 when no
organization hint resolves, 403 for a non-member, 403 for a role outside
the allowed set, 403 for an unmet permission requirement. -/
theorem denial_status_and_messages :
    (∀ (db : List MemberRecord) (qh ph : Option String),
      requireOrganizationContext db none qh ph = .denied 401 "Unauthorized") ∧
    (∀ (db : List MemberRecord) (uid : String) (active qh ph : Option String),
      isTruthy active = false → isTruthy qh = false → isTruthy ph = false →
      requireOrganizationContext db (some ⟨uid, active⟩) qh ph =
        .denied 400 "Organization ID is required") ∧
    (∀ (db : List MemberRecord) (uid : String) (active qh ph : Option String) (oid : String),
      resolveOrganizationId active qh ph = some oid → oid ≠ "" →
      getOrganizationMember db uid oid = none →
      requireOrganizationContext db (some ⟨uid, active⟩) qh ph =
        .denied 403 "User is not a member of this organization") ∧
    (∀ (allowedRoles : List String) (role : String),
      allowedRoles.contains role = false →
      requireRole allowedRoles role =
        .denied 403 ("Access denied. Required role: " ++
          String.intercalate " or " allowedRoles)) ∧
    (∀ (perms : List Permission) (role : String),
      role ≠ "" → hasAnyPermission role perms = false →
      requirePermission perms role =
        .denied 403 ("Access denied. Required permission: " ++
          String.intercalate " or " (perms.map permissionToString))) ∧
    (∀ (perms : List Permission) (role : String),
      role ≠ "" → hasAllPermissions role perms = false →
      requireAllPermissions perms role =
        .denied 403 ("Access denied. Required all permissions: " ++
          String.intercalate " and " (perms.map permissionToString))) := by
  refine ⟨?_, ?_, ?_, ?_, ?_, ?_⟩
  · intro db qh ph; rfl
  · intro db uid active qh ph ha hq hp
    exact requireOrganizationContext_no_hint db uid active qh ph ha hq hp
  · intro db uid active qh ph oid hres hne hmem
    have hb : (oid == "") = false := by simp [hne]
    simp [requireOrganizationContext, hres, hb, hmem]
  · intro allowedRoles role hcon
    simp [requireRole, hcon]
    intro _
    simpa using hcon
  · intro perms role hne hv
    have hb : (role == "") = false := by simp [hne]
    simp [requirePermission, hb, hv]
  · intro perms role hne hv
    have hb : (role == "") = false := by simp [hne]
    simp [requireAllPermissions, hb, hv]

/-- C3 witness: one concrete denial of each kind. -/
theorem denial_status_and_messages_witness :
    requireOrganizationContext [] none none none = .denied 401 "Unauthorized" ∧
    requireOrganizationContext [] (some ⟨"u1", none⟩) none none =
      .denied 400 "Organization ID is required" ∧
    requireOrganizationContext [] (some ⟨"u1", some "org1"⟩) none none =
      .denied 403 "User is not a member of this organization" ∧
    requireRole ["OWNER"] "USER" =
      .denied 403 ("Access denied. Required role: " ++
        String.intercalate " or " ["OWNER"]) ∧
    requirePermission [Permission.MANAGE_ORGANIZATION] "USER" =
      .denied 403 ("Access denied. Required permission: " ++
        String.intercalate " or " ([Permission.MANAGE_ORGANIZATION].map permissionToString)) ∧
    requireAllPermissions [Permission.MANAGE_ORGANIZATION] "USER" =
      .denied 403 ("Access denied. Required all permissions: " ++
        String.intercalate " and " ([Permission.MANAGE_ORGANIZATION].map permissionToString)) :=
  ⟨denial_status_and_messages.1 [] none none,
    denial_status_and_messages.2.1 [] "u1" none none none rfl rfl rfl,
    denial_status_and_messages.2.2.1 [] "u1" (some "org1") none none "org1" (by decide)
      (by decide) rfl,
    denial_status_and_messages.2.2.2.1 ["OWNER"] "USER" (by decide),
    denial_status_and_messages.2.2.2.2.1 [Permission.MANAGE_ORGANIZATION] "USER"
      (by decide) (by decide),
    denial_status_and_messages.2.2.2.2.2 [Permission.MANAGE_ORGANIZATION] "USER"
      (by decide) (by decide)⟩

/-- C4: whenever the context middleware or the permission middleware
denies, the downstream handler is never invoked: the pipeline result is the
structured denial of the failing step, for every handler. -/
theorem guard_fail_closed (db : List MemberRecord) (session : Option Session)
    (qh ph : Option String) (perms : List Permission) :
    (∀ s m, requireOrganizationContext db session qh ph = .denied s m →
      ∀ handler : RBACContext → Response,
        protectedRoute db session qh ph perms handler = ⟨s, m⟩) ∧
    (∀ ctx, requireOrganizationContext db session qh ph = .proceed ctx →
      ∀ s m, requirePermission perms ctx.role = .denied s m →
      ∀ handler : RBACContext → Response,
        protectedRoute db session qh ph perms handler = ⟨s, m⟩) := by
  constructor
  · intro s m hctx handler
    simp [protectedRoute, hctx]
  · intro ctx hctx s m hperm handler
    simp [protectedRoute, hctx, hperm]

/-- C4 witness: with no session, the pipeline returns the 401 denial and
the handler result 200 never appears. -/
theorem guard_fail_closed_witness :
    protectedRoute [] none none none [] (fun _ => ⟨200, "ok"⟩) = ⟨401, "Unauthorized"⟩ :=
  (guard_fail_closed [] none none none []).1 401 "Unauthorized" rfl (fun _ => ⟨200, "ok"⟩)

/-- C9: the resolved organization id is the first non-empty hint among the
session active organization, the query parameter and the path parameter,
later hints are consulted only when every earlier hint is empty, and when
all three are empty the middleware denies with the missing-organization
response. -/
theorem organization_hint_precedence (active qh ph : Option String) :
    (isTruthy active = true → resolveOrganizationId active qh ph = active) ∧
    (isTruthy active = false → isTruthy qh = true →
      resolveOrganizationId active qh ph = qh) ∧
    (isTruthy active = false → isTruthy qh = false →
      resolveOrganizationId active qh ph = ph) ∧
    (∀ (db : List MemberRecord) (uid : String),
      isTruthy active = false → isTruthy qh = false → isTruthy ph = false →
      requireOrganizationContext db (some ⟨uid, active⟩) qh ph =
        .denied 400 "Organization ID is required") := by
  refine ⟨?_, ?_, ?_, ?_⟩
  · intro ha; simp [resolveOrganizationId, jsOrStr, ha]
  · intro ha hq; simp [resolveOrganizationId, jsOrStr, ha, hq]
  · intro ha hq; simp [resolveOrganizationId, jsOrStr, ha, hq]
  · intro db uid ha hq hp
    exact requireOrganizationContext_no_hint db uid active qh ph ha hq hp

/-- C9 witness: with a truthy active organization the query hint is
ignored, and with no hints at all the middleware denies with 400. -/
theorem organization_hint_precedence_witness :
    resolveOrganizationId (some "orgA") (some "orgB") none = some "orgA" ∧
    requireOrganizationContext [] (some ⟨"u1", none⟩) (some "") none =
      .denied 400 "Organization ID is required" :=
  ⟨(organization_hint_precedence (some "orgA") (some "orgB") none).1 (by decide),
    (organization_hint_precedence none (some "") none).2.2.2 [] "u1" (by decide)
      (by decide) (by decide)⟩

/-- C1 witness: role TRAINER with the singleton requirement
CREATE_WORKOUTS, in the any-of form. -/
theorem cross_boundary_consistency_witness :
    RbacClient.hasPermission [Permission.CREATE_WORKOUTS]
      (some { role := "TRAINER", permissions := trainerPermissions,
              can := buildCan trainerPermissions }) false =
      (if false then hasAllPermissions "TRAINER" [Permission.CREATE_WORKOUTS]
       else hasAnyPermission "TRAINER" [Permission.CREATE_WORKOUTS]) :=
  (cross_boundary_consistency "TRAINER" (by decide)
    { role := "TRAINER", permissions := trainerPermissions, can := buildCan trainerPermissions }
    (by decide) [Permission.CREATE_WORKOUTS] (by decide) false).1

end RBAC
